import Mathlib

/-!
Verification of the NadRacer transaction relay subsystem
(`src/relayer.js`, treasury-transfer variant; the minting variant in
`src/unnamed/part_000` shares the queueing, selection and retry logic).

The JavaScript source is shallowly embedded below.  Amounts are BigInt wei
values, modelled as `Nat` (all arithmetic in the source stays non-negative
and BigInt is arbitrary precision, so no modular reduction is needed).
Point counts (`pointsToMint`) are JS numbers that the code never validates
for sign, so they are modelled as `Int`.  Asynchronous ledger calls
(`provider.*`, contract calls, `tx.wait`) are modelled by an explicit
environment record carrying each call's outcome for one loop iteration.
-/

namespace NadRacer

/-! ## Fee estimator (`calculateGasFeesByPriority`, relayer.js lines 786-858) -/

/-- One gwei expressed in wei, matching `ethers.parseUnits(n, 'gwei')`. -/
def gwei (n : Nat) : Nat := n * 1000000000

/-- Result of `provider.getFeeData()`; either field may be `null` on chains
that do not support EIP-1559. -/
structure FeeData where
  maxFeePerGas : Option Nat
  maxPriorityFeePerGas : Option Nat
deriving DecidableEq, Repr

/-- EIP-1559 fee pair returned by the estimator. -/
structure GasFees where
  maxFeePerGas : Nat
  maxPriorityFeePerGas : Nat
deriving DecidableEq, Repr

/-- The `GAS_PRIORITY` environment setting, lower-cased; any unrecognised
value falls into the `default:` switch branch together with `medium`. -/
inductive GasPriority where
  | slow
  | medium
  | fast
deriving DecidableEq, Repr

/-- JS `x || d` applied to an optional BigInt: both `null`/`undefined` and
`0n` are falsy, so a missing or zero network quote is replaced by `d`. -/
def orDefaultBig (x : Option Nat) (d : Nat) : Nat :=
  match x with
  | none => d
  | some n => if n = 0 then d else n

/-- `calculateGasFeesByPriority(feeData)` from relayer.js.  The priority is
read from the environment in the source; it is passed explicitly here. -/
def calculateGasFeesByPriority (feeData : FeeData) (gasPriority : GasPriority) : GasFees :=
  let baseFeePerGas := orDefaultBig feeData.maxFeePerGas (gwei 50)
  let priorityFeePerGas := orDefaultBig feeData.maxPriorityFeePerGas 1500000000
  let MIN_MAX_FEE_PER_GAS := gwei 60
  let MIN_PRIORITY_FEE_PER_GAS := gwei 2
  match gasPriority with
  | .slow =>
    let slowMaxFeePerGas := baseFeePerGas * 120 / 100
    let slowPriorityFee := priorityFeePerGas
    let slowMaxFeePerGas :=
      if slowMaxFeePerGas < MIN_MAX_FEE_PER_GAS then MIN_MAX_FEE_PER_GAS else slowMaxFeePerGas
    let slowPriorityFee :=
      if slowPriorityFee < MIN_PRIORITY_FEE_PER_GAS then MIN_PRIORITY_FEE_PER_GAS else slowPriorityFee
    { maxFeePerGas := slowMaxFeePerGas, maxPriorityFeePerGas := slowPriorityFee }
  | .fast =>
    let fastMaxFeePerGas := baseFeePerGas * 250 / 100
    let fastPriorityFee := priorityFeePerGas * 200 / 100
    let fastMaxFeePerGas :=
      if fastMaxFeePerGas < MIN_MAX_FEE_PER_GAS * 2 then MIN_MAX_FEE_PER_GAS * 2 else fastMaxFeePerGas
    let fastPriorityFee :=
      if fastPriorityFee < MIN_PRIORITY_FEE_PER_GAS * 2 then MIN_PRIORITY_FEE_PER_GAS * 2 else fastPriorityFee
    { maxFeePerGas := fastMaxFeePerGas, maxPriorityFeePerGas := fastPriorityFee }
  | .medium =>
    let mediumMaxFeePerGas := baseFeePerGas * 150 / 100
    let mediumPriorityFee := priorityFeePerGas * 150 / 100
    let mediumMaxFeePerGas :=
      if mediumMaxFeePerGas < MIN_MAX_FEE_PER_GAS * 150 / 100 then MIN_MAX_FEE_PER_GAS * 150 / 100
      else mediumMaxFeePerGas
    let mediumPriorityFee :=
      if mediumPriorityFee < MIN_PRIORITY_FEE_PER_GAS * 150 / 100 then MIN_PRIORITY_FEE_PER_GAS * 150 / 100
      else mediumPriorityFee
    { maxFeePerGas := mediumMaxFeePerGas, maxPriorityFeePerGas := mediumPriorityFee }

/-- The per-tier lower bound that the estimator clamps `maxFeePerGas` to:
60 gwei for slow, 90 gwei (60 gwei x 150 / 100) for medium and
120 gwei (60 gwei x 2) for fast. -/
def tierMaxFeeFloor : GasPriority → Nat
  | .slow => gwei 60
  | .medium => gwei 60 * 150 / 100
  | .fast => gwei 60 * 2

/-! ## Error-message classification (`processQueue` catch block)

JS `String.prototype.includes` is modelled over character lists. -/

/-- `leadsWith p s` holds when `p` matches `s` starting at its first
character (the anchored step of a substring search). -/
def leadsWith : List Char → List Char → Bool
  | [], _ => true
  | _ :: _, [] => false
  | c :: p, d :: s => c == d && leadsWith p s

/-- Unanchored substring search: `containsSub p s` is JS `s.includes(p)`. -/
def containsSub (p : List Char) : List Char → Bool
  | [] => leadsWith p []
  | d :: s => leadsWith p (d :: s) || containsSub p s

/-- `msg.includes(pat)` on strings. -/
def includesStr (msg pat : String) : Bool := containsSub pat.data msg.data

/-- The permanent-error test of relayer.js lines 696-700: an error is not
retried when its message mentions one of four known guaranteed-failure
conditions. -/
def isPermanentError (msg : String) : Bool :=
  includesStr msg "insufficient funds" ||
  includesStr msg "execution reverted" ||
  includesStr msg "cannot estimate gas" ||
  includesStr msg "invalid address"

/-- The nonce-conflict test of relayer.js line 675, which forces a
latest-state nonce refresh before the failure is classified. -/
def isNonceError (msg : String) : Bool :=
  includesStr msg "nonce" || includesStr msg "already been used"

/-- JS `error.message || 'Unknown error'`: the empty string is falsy. -/
def msgOrUnknown (m : String) : String :=
  if m = "" then "Unknown error" else m

/-- Characters that `ethers.formatUnits` can emit when rendering a token
amount: decimal digits, the decimal point, and a leading minus sign. -/
def isAmountChar (c : Char) : Bool := c.isDigit || c == '.' || c == '-'

/-- The error thrown by relayer.js line 595 when the treasury balance is
below the requested amount; `hv` and `nd` stand for the two
`ethers.formatUnits` renderings interpolated into the template. -/
def insufficientTreasuryMsg (hv nd : String) : String :=
  "Insufficient treasury balance. Have " ++ hv ++ ", need " ++ nd

/-! ## Data model (constructor of `RelayerSystem`, relayer.js lines 23-39,
stats records lines 223-237) -/

/-- A queued transfer request (`txData`).  `retryCount` is absent on a fresh
request and set by the failure handler; `txData.retryCount || 0` is modelled
by `Option.getD` (both `undefined` and `0` read as `0`). -/
structure TxData where
  walletAddress : String
  pointsToMint : Int
  retryCount : Option Nat
  timestamp : Nat
deriving DecidableEq, Repr

/-- Per-relayer statistics record (`this.relayerStats[address]`). -/
structure RelayerStats where
  index : Nat
  address : String
  active : Bool
  currentNonce : Nat
  totalTxSent : Nat
  totalTxSuccess : Nat
  totalTxFailed : Nat
  lastError : Option String
  lastErrorTimestamp : Option Nat
  lastSuccessTimestamp : Option Nat
  lastSuccessHash : Option String
  tokensTransferred : Int
  queueLength : Nat
deriving DecidableEq, Repr

/-- One relayer with its stats, queue and processing flag.  The source keeps
`relayers`, `relayerStats`, `txQueues` and `processingFlags` as parallel
structures keyed by the wallet address; they are bundled here, preserving
pool order. -/
structure RelayerEntry where
  address : String
  stats : RelayerStats
  queue : List TxData
  processing : Bool
deriving DecidableEq, Repr

/-- The relayer subsystem state reachable from the claims: the pool in
iteration order plus the initialization flag. -/
structure RelayerSystem where
  isInitialized : Bool
  entries : List RelayerEntry
deriving DecidableEq, Repr

/-- Payload handed to `onTransactionComplete`. -/
structure TxPayload where
  hash : Option String
  walletAddress : String
  pointsToMint : Int
  success : Bool
  relayerAddress : String
  relayerIndex : Nat
  error : Option String
  gasUsed : Option String
deriving DecidableEq, Repr

/-- Confirmation receipt from `tx.wait()`; `gasUsed` may be absent
(`receipt.gasUsed?.toString() || '0'`). -/
structure Receipt where
  hash : String
  gasUsed : Option Nat
deriving DecidableEq, Repr

/-- The registered completion callback: `none` means no callback is set;
when applied, a `some m` result models the callback throwing an exception
whose message is `m`. -/
def TxCallback := TxPayload → Option String

/-- Outcomes of the asynchronous ledger-client calls made during one
iteration of the `processQueue` while loop.  A `none`/`.error` value models
the corresponding awaited call rejecting with that message. -/
structure IterEnv where
  pendingNonce : Option Nat
  cooldownNonce : Option Nat
  treasuryBalance : Except String Nat
  treasuryBalanceFormatted : String
  amountFormatted : String
  feeData : Except String FeeData
  gasPriority : GasPriority
  submitResult : Except String String
  confirmResult : Except String Receipt
  errorNonce : Option Nat
  now : Nat

/-- Result of one iteration of the drain loop: the relayer's new state, the
consecutive-failure counter, every completion-callback invocation made (in
order), the transient-failure backoff applied, whether `transferFrom` was
invoked, and whether an exception escaped to the outer catch (which ends
the drain loop). -/
structure IterResult where
  entry : RelayerEntry
  consecutiveFailures : Nat
  events : List TxPayload
  backoffMs : Nat
  submitted : Bool
  aborted : Bool
deriving Repr

/-- Delay between transactions (ms), relayer.js line 16. -/
def TX_DELAY_MS : Nat := 100

/-- Per-request retry budget, relayer.js line 555. -/
def maxRetries : Nat := 5

/-- Confirmation-wait timeout (ms), relayer.js line 639. -/
def confirmationTimeoutMs : Nat := 60000

/-- Cooldown after three consecutive failures (ms), relayer.js line 535. -/
def cooldownMs : Nat := 15000

/-- Message of the exhausted-retries terminal failure (line 569). -/
def maxRetriesMsg : String := "Max retries (5) exceeded"

/-- Message of the confirmation-timeout rejection (line 639). -/
def confirmationTimeoutMsg : String := "Transaction confirmation timeout"

/-- Payload reported for a confirmed transfer (lines 653-661). -/
def successPayload (address : String) (idx : Nat) (txData : TxData) (receipt : Receipt) :
    TxPayload :=
  { hash := some receipt.hash
    walletAddress := txData.walletAddress
    pointsToMint := txData.pointsToMint
    success := true
    relayerAddress := address
    relayerIndex := idx
    error := none
    gasUsed := some (match receipt.gasUsed with | some g => toString g | none => "0") }

/-- Payload reported for a permanent failure (lines 707-715). -/
def failurePayload (address : String) (idx : Nat) (txData : TxData) (errMsg : String) :
    TxPayload :=
  { hash := none
    walletAddress := txData.walletAddress
    pointsToMint := txData.pointsToMint
    success := false
    relayerAddress := address
    relayerIndex := idx
    error := some (msgOrUnknown errMsg)
    gasUsed := none }

/-- Payload reported when the retry budget is exhausted (lines 562-570). -/
def maxRetriesPayload (address : String) (idx : Nat) (txData : TxData) : TxPayload :=
  { hash := none
    walletAddress := txData.walletAddress
    pointsToMint := txData.pointsToMint
    success := false
    relayerAddress := address
    relayerIndex := idx
    error := some maxRetriesMsg
    gasUsed := none }

/-- Best-effort pending-state nonce refresh at the top of each iteration
(lines 521-530); a failed query leaves the cached value. -/
def refreshedStats (env : IterEnv) (stats : RelayerStats) : RelayerStats :=
  match env.pendingNonce with
  | some n => { stats with currentNonce := n }
  | none => stats

/-- Cooldown branch (lines 533-548): after three consecutive failures the
processor pauses, re-reads the nonce in latest state (best effort) and
resets the consecutive-failure counter. -/
def cooldownStep (env : IterEnv) (stats : RelayerStats) (consecutiveFailures : Nat) :
    RelayerStats × Nat :=
  if 3 ≤ consecutiveFailures then
    (match env.cooldownNonce with
     | some n => { stats with currentNonce := n }
     | none => stats,
     0)
  else (stats, consecutiveFailures)

/-- The catch block of the per-transaction try (lines 671-730): refresh the
nonce on sequence-number conflicts, record failure stats, bump the head
request's `retryCount`, then either drop the request (permanent error,
reporting it through the callback) or keep it and back off exponentially. -/
def handleTxError (cb : Option TxCallback) (env : IterEnv) (entry : RelayerEntry)
    (txData : TxData) (rest : List TxData) (retryCount consecutiveFailures : Nat)
    (errMsg : String) (priorEvents : List TxPayload) (didSubmit : Bool)
    (stats : RelayerStats) : IterResult :=
  let stats :=
    if isNonceError errMsg then
      match env.errorNonce with
      | some n => { stats with currentNonce := n }
      | none => stats
    else stats
  let stats :=
    { stats with
      totalTxSent := stats.totalTxSent + 1
      totalTxFailed := stats.totalTxFailed + 1
      lastError := some (msgOrUnknown errMsg)
      lastErrorTimestamp := some env.now }
  let queue := { txData with retryCount := some (retryCount + 1) } :: rest
  if isPermanentError errMsg then
    let payload := failurePayload entry.address stats.index txData errMsg
    match cb with
    | none =>
      let stats := { stats with queueLength := rest.length }
      { entry := { entry with stats, queue := rest }
        consecutiveFailures, events := priorEvents, backoffMs := 0
        submitted := didSubmit, aborted := false }
    | some f =>
      match f payload with
      | some _ =>
        { entry := { entry with stats, queue }
          consecutiveFailures, events := priorEvents ++ [payload], backoffMs := 0
          submitted := didSubmit, aborted := true }
      | none =>
        let stats := { stats with queueLength := rest.length }
        { entry := { entry with stats, queue := rest }
          consecutiveFailures, events := priorEvents ++ [payload], backoffMs := 0
          submitted := didSubmit, aborted := false }
  else
    { entry := { entry with stats, queue }
      consecutiveFailures := consecutiveFailures + 1
      events := priorEvents
      backoffMs := min (2000 * 2 ^ retryCount) 30000
      submitted := didSubmit, aborted := false }

/-- One pass of the `processQueue` while loop (relayer.js lines 520-731) for
one relayer.  The surrounding loop re-enters while the queue is non-empty
and `aborted` is false; on exit the processing flag is cleared and a
non-empty queue is rescheduled (lines 735-746). -/
def processIteration (cb : Option TxCallback) (env : IterEnv)
    (entry : RelayerEntry) (consecutiveFailures : Nat) : IterResult :=
  let stats := refreshedStats env entry.stats
  let sc := cooldownStep env stats consecutiveFailures
  let stats := sc.1
  let consecutiveFailures := sc.2
  match entry.queue with
  | [] =>
    { entry := { entry with stats }
      consecutiveFailures, events := [], backoffMs := 0
      submitted := false, aborted := false }
  | txData :: rest =>
    let retryCount := txData.retryCount.getD 0
    if maxRetries ≤ retryCount then
      let payload := maxRetriesPayload entry.address stats.index txData
      match cb with
      | none =>
        let stats := { stats with queueLength := rest.length }
        { entry := { entry with stats, queue := rest }
          consecutiveFailures, events := [], backoffMs := 0
          submitted := false, aborted := false }
      | some f =>
        match f payload with
        | some _ =>
          { entry := { entry with stats }
            consecutiveFailures, events := [payload], backoffMs := 0
            submitted := false, aborted := true }
        | none =>
          let stats := { stats with queueLength := rest.length }
          { entry := { entry with stats, queue := rest }
            consecutiveFailures, events := [payload], backoffMs := 0
            submitted := false, aborted := false }
    else
      let tokenAmount : Int := txData.pointsToMint * 10 ^ 18
      match env.treasuryBalance with
      | .error m =>
        handleTxError cb env entry txData rest retryCount consecutiveFailures m [] false stats
      | .ok bal =>
        if (bal : Int) < tokenAmount then
          handleTxError cb env entry txData rest retryCount consecutiveFailures
            (insufficientTreasuryMsg env.treasuryBalanceFormatted env.amountFormatted)
            [] false stats
        else
          match env.feeData with
          | .error m =>
            handleTxError cb env entry txData rest retryCount consecutiveFailures m [] false stats
          | .ok fd =>
            let _fees := calculateGasFeesByPriority fd env.gasPriority
            match env.submitResult with
            | .error m =>
              handleTxError cb env entry txData rest retryCount consecutiveFailures m [] true stats
            | .ok _txHash =>
              let stats := { stats with currentNonce := stats.currentNonce + 1 }
              match env.confirmResult with
              | .error m =>
                handleTxError cb env entry txData rest retryCount consecutiveFailures m [] true stats
              | .ok receipt =>
                let stats :=
                  { stats with
                    totalTxSent := stats.totalTxSent + 1
                    totalTxSuccess := stats.totalTxSuccess + 1
                    lastSuccessTimestamp := some env.now
                    lastSuccessHash := some receipt.hash
                    tokensTransferred := stats.tokensTransferred + txData.pointsToMint }
                let payload := successPayload entry.address stats.index txData receipt
                match cb with
                | none =>
                  let stats := { stats with queueLength := rest.length }
                  { entry := { entry with stats, queue := rest }
                    consecutiveFailures := 0, events := [], backoffMs := 0
                    submitted := true, aborted := false }
                | some f =>
                  match f payload with
                  | some m =>
                    handleTxError cb env entry txData rest retryCount consecutiveFailures
                      m [payload] true stats
                  | none =>
                    let stats := { stats with queueLength := rest.length }
                    { entry := { entry with stats, queue := rest }
                      consecutiveFailures := 0, events := [payload], backoffMs := 0
                      submitted := true, aborted := false }

/-! ## Relayer selection and enqueueing
(`selectRelayer` lines 421-448, `queueTransaction` lines 470-501) -/

/-- The `for (const relayer of activeRelayers)` scan: keep the running best
relayer, replacing it only on a strictly shorter queue. -/
def selectLoop (bestRelayer : RelayerEntry) (shortestQueueLength : Nat) :
    List RelayerEntry → RelayerEntry
  | [] => bestRelayer
  | relayer :: rs =>
    if relayer.queue.length < shortestQueueLength then
      selectLoop relayer relayer.queue.length rs
    else
      selectLoop bestRelayer shortestQueueLength rs

/-- `selectRelayer()`: `null` when the pool is empty or no relayer is
active, otherwise the first active relayer with the shortest queue. -/
def selectRelayer (sys : RelayerSystem) : Option RelayerEntry :=
  if sys.entries.isEmpty then none
  else
    let activeRelayers := sys.entries.filter fun e => e.stats.active
    match activeRelayers with
    | [] => none
    | bestRelayer :: _ => some (selectLoop bestRelayer bestRelayer.queue.length activeRelayers)

/-- Push `txData` onto the queue of the relayer with the given address and
refresh that relayer's denormalized `queueLength` (lines 492-493). -/
def appendToQueue (entries : List RelayerEntry) (address : String) (txData : TxData) :
    List RelayerEntry :=
  entries.map fun e =>
    if e.address == address then
      let queue := e.queue ++ [txData]
      { e with queue, stats := { e.stats with queueLength := queue.length } }
    else e

/-- `queueTransaction(txData)`: validates initialization and the request
fields (JS truthiness: the empty recipient and a zero amount are falsy, a
negative amount is truthy), stamps the enqueue time, selects a relayer and
appends.  The `processQueue` trigger on line 498 is asynchronous and is
modelled separately by `processIteration`. -/
def queueTransaction (sys : RelayerSystem) (now : Nat) (txData : TxData) :
    Bool × RelayerSystem :=
  if !sys.isInitialized then (false, sys)
  else if txData.walletAddress == "" || txData.pointsToMint == 0 then (false, sys)
  else
    let txData := { txData with timestamp := now }
    match selectRelayer sys with
    | none => (false, sys)
    | some relayer =>
      (true, { sys with entries := appendToQueue sys.entries relayer.address txData })

/-! ## Initialization (`initialize` lines 45-187,
`initializeRelayersFromEnv` lines 192-251, `setupOwnerAsRelayer` lines
256-281) -/

/-- The environment variables `initialize` reads. -/
structure InitConfig where
  ownerPrivateKey : Option String
  privateKey : Option String
  treasuryPrivateKey : Option String
  tokenAddress : Option String
  enableRelayerSystem : Bool
  maxRelayers : Nat
  relayerEnvKeys : Nat → Option String

/-- Contents of `important files/relayer-wallets.json` when the file
exists. -/
structure JsonWallets where
  numWallets : Nat
  wallets : List (String × String)

/-- Ledger-client behaviour during initialization: key-to-address
derivation (`none` models `new ethers.Wallet` throwing on an invalid key),
the `getTransactionCount` answer per address, and the optional JSON
fallback file. -/
structure InitLedger where
  addrOf : String → Option String
  transactionCount : String → Nat
  jsonWallets : Option JsonWallets

/-- Fresh zeroed stats/queue/flag for one relayer, as created at lines
223-241. -/
def mkRelayerEntry (i : Nat) (address : String) (nonce : Nat) : RelayerEntry :=
  { address
    stats :=
      { index := i, address, active := true, currentNonce := nonce
        totalTxSent := 0, totalTxSuccess := 0, totalTxFailed := 0
        lastError := none, lastErrorTimestamp := none
        lastSuccessTimestamp := none, lastSuccessHash := none
        tokensTransferred := 0, queueLength := 0 }
    queue := []
    processing := false }

/-- `initializeRelayersFromEnv`: collect `RELAYER_PRIVATE_KEY_1..N`, then
derive a wallet per key, skipping (with a log) any key whose derivation
throws. -/
def initializeRelayersFromEnv (cfg : InitConfig) (ledger : InitLedger) :
    List RelayerEntry :=
  let privateKeys := (List.range cfg.maxRelayers).filterMap fun i => cfg.relayerEnvKeys (i + 1)
  privateKeys.enum.filterMap fun p =>
    match ledger.addrOf p.2 with
    | none => none
    | some address => some (mkRelayerEntry p.1 address (ledger.transactionCount address))

/-- `setupOwnerAsRelayer`: the owner wallet becomes the only relayer. -/
def setupOwnerAsRelayer (ownerAddress : String) (nonce : Nat) : List RelayerEntry :=
  [mkRelayerEntry 0 ownerAddress nonce]

/-- The JSON fallback (lines 109-154): load `min(numWallets, maxRelayers)`
wallets; any exception while reading entries or deriving wallets lands in
the `fileError` handler (modelled as `none`), after which the owner wallet
is substituted.  Partially-registered stats of an abandoned load survive in
the source's `relayerStats` map but are unreachable once `relayers` is
replaced, so they are not modelled. -/
def loadRelayersFromJson (cfg : InitConfig) (ledger : InitLedger) (jw : JsonWallets) :
    Option (List RelayerEntry) :=
  let numToUse := min jw.numWallets cfg.maxRelayers
  if jw.wallets.length < numToUse then none
  else
    ((jw.wallets.take numToUse).enum.mapM fun p =>
      (ledger.addrOf p.2.1).map fun address =>
        mkRelayerEntry p.1 address (ledger.transactionCount address))

/-- The uninitialized subsystem (constructor state). -/
def emptySystem : RelayerSystem := { isInitialized := false, entries := [] }

/-- `initialize(provider)`: set up the owner and treasury wallets and the
token contract, then populate the relayer pool.  Token-approval
transactions (`ensureTokenApproval`/`ensureOwnerApproval`) only talk to the
ledger, swallow their own errors and have their results ignored, so they do
not appear in the state.  Returns the success flag and the resulting
subsystem state. -/
def initializeSystem (cfg : InitConfig) (ledger : InitLedger) : Bool × RelayerSystem :=
  match (match cfg.ownerPrivateKey with | some k => some k | none => cfg.privateKey) with
  | none => (false, emptySystem)
  | some ownerKey =>
    match ledger.addrOf ownerKey with
    | none => (false, emptySystem)
    | some ownerAddress =>
      match cfg.treasuryPrivateKey with
      | none => (false, emptySystem)
      | some treasuryKey =>
        match ledger.addrOf treasuryKey with
        | none => (false, emptySystem)
        | some _treasuryAddress =>
          match cfg.tokenAddress with
          | none => (false, emptySystem)
          | some _tokenAddress =>
            if cfg.enableRelayerSystem then
              let fromEnv := initializeRelayersFromEnv cfg ledger
              let entries :=
                if fromEnv.length = 0 then
                  match ledger.jsonWallets with
                  | some jw =>
                    match loadRelayersFromJson cfg ledger jw with
                    | some loaded => loaded
                    | none =>
                      setupOwnerAsRelayer ownerAddress (ledger.transactionCount ownerAddress)
                  | none =>
                    setupOwnerAsRelayer ownerAddress (ledger.transactionCount ownerAddress)
                else fromEnv
              (true, { isInitialized := true, entries })
            else
              (true, { isInitialized := true
                       entries := setupOwnerAsRelayer ownerAddress
                         (ledger.transactionCount ownerAddress) })

/-! ## Proof development -/

theorem refreshedStats_eq (env : IterEnv) (s : RelayerStats) :
    ∃ n, refreshedStats env s = { s with currentNonce := n } := by
  unfold refreshedStats
  cases env.pendingNonce with
  | none => exact ⟨s.currentNonce, rfl⟩
  | some n => exact ⟨n, rfl⟩

theorem cooldownStep_eq (env : IterEnv) (s : RelayerStats) (c : Nat) :
    ∃ n c', cooldownStep env s c = ({ s with currentNonce := n }, c') := by
  unfold cooldownStep
  split
  · cases env.cooldownNonce with
    | none => exact ⟨s.currentNonce, 0, rfl⟩
    | some n => exact ⟨n, 0, rfl⟩
  · exact ⟨s.currentNonce, c, rfl⟩

/-- Every branch of the failure handler adds exactly one to `totalTxSent`
and `totalTxFailed` and leaves `totalTxSuccess` and `tokensTransferred` as
they were. -/
theorem handleTxError_counters (cb : Option TxCallback) (env : IterEnv)
    (entry : RelayerEntry) (txData : TxData) (rest : List TxData)
    (retryCount cf : Nat) (errMsg : String) (priorEvents : List TxPayload)
    (didSubmit : Bool) (stats : RelayerStats) :
    (handleTxError cb env entry txData rest retryCount cf errMsg priorEvents didSubmit
        stats).entry.stats.totalTxSent = stats.totalTxSent + 1 ∧
    (handleTxError cb env entry txData rest retryCount cf errMsg priorEvents didSubmit
        stats).entry.stats.totalTxSuccess = stats.totalTxSuccess ∧
    (handleTxError cb env entry txData rest retryCount cf errMsg priorEvents didSubmit
        stats).entry.stats.totalTxFailed = stats.totalTxFailed + 1 ∧
    (handleTxError cb env entry txData rest retryCount cf errMsg priorEvents didSubmit
        stats).entry.stats.tokensTransferred = stats.tokensTransferred := by
  simp only [handleTxError]
  repeat' split
  all_goals refine ⟨by simp, by simp, by simp, by simp⟩

/-- When the error message matches no permanent pattern, the failure handler
keeps the request at the head of the queue with its retry count bumped,
fires no callback, bumps the consecutive-failure counter and applies the
capped exponential backoff. -/
theorem handleTxError_transient (cb : Option TxCallback) (env : IterEnv)
    (entry : RelayerEntry) (txData : TxData) (rest : List TxData)
    (retryCount cf : Nat) (errMsg : String) (priorEvents : List TxPayload)
    (didSubmit : Bool) (stats : RelayerStats)
    (hperm : isPermanentError errMsg = false) :
    handleTxError cb env entry txData rest retryCount cf errMsg priorEvents didSubmit stats =
      { entry :=
          { entry with
            stats :=
              { (if isNonceError errMsg then
                    match env.errorNonce with
                    | some n => { stats with currentNonce := n }
                    | none => stats
                  else stats) with
                totalTxSent := stats.totalTxSent + 1
                totalTxFailed := stats.totalTxFailed + 1
                lastError := some (msgOrUnknown errMsg)
                lastErrorTimestamp := some env.now }
            queue := { txData with retryCount := some (retryCount + 1) } :: rest }
        consecutiveFailures := cf + 1
        events := priorEvents
        backoffMs := min (2000 * 2 ^ retryCount) 30000
        submitted := didSubmit
        aborted := false } := by
  simp only [handleTxError, hperm, Bool.false_eq_true, if_false]
  split <;> cases env.errorNonce <;> simp

/-- C10: removing a retry-exhausted request updates no transaction counters
and no token accumulator: the exhaustion is visible only through the
completion callback and the queue length. -/
theorem maxRetries_removal_frame (cb : Option TxCallback) (env : IterEnv)
    (entry : RelayerEntry) (cf : Nat) (txData : TxData) (rest : List TxData)
    (hq : entry.queue = txData :: rest)
    (hr : maxRetries ≤ txData.retryCount.getD 0) :
    (processIteration cb env entry cf).entry.stats.totalTxSent = entry.stats.totalTxSent ∧
    (processIteration cb env entry cf).entry.stats.totalTxSuccess = entry.stats.totalTxSuccess ∧
    (processIteration cb env entry cf).entry.stats.totalTxFailed = entry.stats.totalTxFailed ∧
    (processIteration cb env entry cf).entry.stats.tokensTransferred =
      entry.stats.tokensTransferred := by
  obtain ⟨n1, h1⟩ := refreshedStats_eq env entry.stats
  obtain ⟨n2, c2, h2⟩ := cooldownStep_eq env { entry.stats with currentNonce := n1 } cf
  simp only [processIteration, hq, h1, h2, hr, if_true]
  cases cb with
  | none => simp
  | some f =>
    cases hfp : f (maxRetriesPayload entry.address entry.stats.index txData) <;> simp [hfp]

/-- C6: a head request whose `retryCount` has reached the budget of 5 is
removed without any submission attempt: the callback fires exactly once
with `success=false` and the max-retries error, `queueLength` is refreshed,
and the loop continues. -/
theorem maxRetries_terminal (cb : TxCallback) (env : IterEnv)
    (entry : RelayerEntry) (cf : Nat) (txData : TxData) (rest : List TxData)
    (hq : entry.queue = txData :: rest)
    (hr : maxRetries ≤ txData.retryCount.getD 0)
    (hcb : cb (maxRetriesPayload entry.address entry.stats.index txData) = none) :
    (processIteration (some cb) env entry cf).entry.queue = rest ∧
    (processIteration (some cb) env entry cf).events =
      [maxRetriesPayload entry.address entry.stats.index txData] ∧
    (maxRetriesPayload entry.address entry.stats.index txData).success = false ∧
    (maxRetriesPayload entry.address entry.stats.index txData).error = some maxRetriesMsg ∧
    (processIteration (some cb) env entry cf).entry.stats.queueLength = rest.length ∧
    (processIteration (some cb) env entry cf).submitted = false ∧
    (processIteration (some cb) env entry cf).aborted = false := by
  obtain ⟨n1, h1⟩ := refreshedStats_eq env entry.stats
  obtain ⟨n2, c2, h2⟩ := cooldownStep_eq env { entry.stats with currentNonce := n1 } cf
  have hidx : ({ entry.stats with currentNonce := n2 } : RelayerStats).index =
      entry.stats.index := rfl
  simp only [processIteration, hq, h1, h2, hr, if_true, hidx, hcb]
  simp [maxRetriesPayload]

/-- C7: the Fee Estimator is a pure function: identical inputs give identical
outputs; for every tier the returned `maxFeePerGas` is at least the tier's
floor; and a zero network quote is replaced by the hardcoded default exactly
as an absent quote is. -/
theorem calculateGasFees_pure_floor_default (feeData : FeeData) (gasPriority : GasPriority) :
    calculateGasFeesByPriority feeData gasPriority = calculateGasFeesByPriority feeData gasPriority ∧
    tierMaxFeeFloor gasPriority ≤ (calculateGasFeesByPriority feeData gasPriority).maxFeePerGas ∧
    calculateGasFeesByPriority ⟨some 0, some 0⟩ gasPriority =
      calculateGasFeesByPriority ⟨none, none⟩ gasPriority := by
  refine ⟨rfl, ?_, by cases gasPriority <;> rfl⟩
  cases gasPriority <;>
    simp only [calculateGasFeesByPriority, tierMaxFeeFloor, gwei] <;>
    split <;> omega

/-! Digit-and-dot interpolations cannot create an occurrence of any of the
four (all-letter) permanent-error patterns, so the classification of the
treasury-balance error does not depend on the interpolated amounts. -/

theorem beq_false_of_classes {c d : Char} (hc : isAmountChar c = false)
    (hd : isAmountChar d = true) : (c == d) = false := by
  cases h : c == d
  · rfl
  · exact absurd (eq_of_beq h ▸ hc) (by simp [hd])

/-- A pattern whose head is not an amount character cannot match while any
amount characters remain in front of the text. -/
theorem containsSub_skip_amount (c0 : Char) (p' u y : List Char)
    (hc : isAmountChar c0 = false) (hu : ∀ c ∈ u, isAmountChar c = true) :
    containsSub (c0 :: p') (u ++ y) = containsSub (c0 :: p') y := by
  induction u with
  | nil => rfl
  | cons d u ih =>
    have hd : isAmountChar d = true := hu d (by simp)
    have hne : (c0 == d) = false := beq_false_of_classes hc hd
    simp only [List.cons_append, containsSub, leadsWith, hne, Bool.false_and, Bool.false_or]
    exact ih fun c hcu => hu c (by simp [hcu])

/-- An anchored match of an all-letter pattern cannot cross into a block of
amount characters: the whole pattern already matches within `x`. -/
theorem leadsWith_confined (p : List Char) (hp : ∀ c ∈ p, isAmountChar c = false)
    (u : List Char) (hu : ∀ c ∈ u, isAmountChar c = true) (hune : u ≠ []) :
    ∀ x y, leadsWith p (x ++ u ++ y) = true → leadsWith p x = true := by
  induction p with
  | nil => intro x y _; rfl
  | cons c p ih =>
    intro x y h
    cases x with
    | nil =>
      exfalso
      cases u with
      | nil => exact hune rfl
      | cons d u' =>
        have hd : isAmountChar d = true := hu d (by simp)
        have hc : isAmountChar c = false := hp c (by simp)
        simp only [List.nil_append, List.cons_append, leadsWith,
          beq_false_of_classes hc hd, Bool.false_and] at h
        exact Bool.false_ne_true h
    | cons a x' =>
      simp only [List.cons_append, leadsWith, Bool.and_eq_true] at h ⊢
      exact ⟨h.1, ih (fun d hd => hp d (by simp [hd])) x' y h.2⟩

/-- Occurrences of an all-letter pattern in `x ++ u ++ y`, where `u` is a
non-empty block of amount characters, lie entirely inside `x` or inside
`y`. -/
theorem containsSub_amount_block (p : List Char) (hp : ∀ c ∈ p, isAmountChar c = false)
    (hpne : p ≠ []) (u : List Char) (hu : ∀ c ∈ u, isAmountChar c = true) (hune : u ≠ []) :
    ∀ x y, containsSub p (x ++ u ++ y) = true →
      containsSub p x = true ∨ containsSub p y = true := by
  intro x
  induction x with
  | nil =>
    intro y h
    right
    obtain ⟨c0, p', rfl⟩ : ∃ c0 p', p = c0 :: p' := by
      cases p with
      | nil => exact absurd rfl hpne
      | cons c0 p' => exact ⟨c0, p', rfl⟩
    rw [List.nil_append, containsSub_skip_amount c0 p' u y (hp c0 (by simp)) hu] at h
    exact h
  | cons a x' ih =>
    intro y h
    simp only [List.cons_append, containsSub, Bool.or_eq_true] at h
    rcases h with h | h
    · left
      have : leadsWith p ((a :: x') ++ u ++ y) = true := by
        simpa using h
      have hx : leadsWith p (a :: x') = true := leadsWith_confined p hp u hu hune _ y this
      cases p with
      | nil => rfl
      | cons c p' => simp only [containsSub, hx, Bool.true_or]
    · rcases ih y h with h' | h'
      · left
        cases p with
        | nil => rfl
        | cons c p' => simp only [containsSub, h', Bool.or_true]
      · right; exact h'

theorem stringDataAppend (s t : String) : (s ++ t).data = s.data ++ t.data := by
  cases s; cases t; rfl

/-- No all-letter pattern that avoids the fixed template text can occur in
the interpolated treasury-balance message. -/
theorem containsSub_treasuryMsg_false (p : List Char)
    (hp : ∀ c ∈ p, isAmountChar c = false) (hpne : p ≠ [])
    (hA : containsSub p "Insufficient treasury balance. Have ".data = false)
    (hB : containsSub p ", need ".data = false)
    (hE : containsSub p [] = false)
    (hv nd : String)
    (h1 : ∀ c ∈ hv.data, isAmountChar c = true) (hv1 : hv.data ≠ [])
    (h2 : ∀ c ∈ nd.data, isAmountChar c = true) (hn1 : nd.data ≠ []) :
    containsSub p (insufficientTreasuryMsg hv nd).data = false := by
  have hdata : (insufficientTreasuryMsg hv nd).data =
      "Insufficient treasury balance. Have ".data ++ hv.data ++
        (", need ".data ++ nd.data) := by
    simp only [insufficientTreasuryMsg, stringDataAppend, List.append_assoc]
  rw [hdata]
  cases h : containsSub p ("Insufficient treasury balance. Have ".data ++ hv.data ++
      (", need ".data ++ nd.data)) with
  | false => rfl
  | true =>
    exfalso
    rcases containsSub_amount_block p hp hpne hv.data h1 hv1 _ _ h with h' | h'
    · exact Bool.false_ne_true (hA ▸ h')
    · have h'' : containsSub p (", need ".data ++ nd.data ++ []) = true := by
        rw [List.append_nil]; exact h'
      rcases containsSub_amount_block p hp hpne nd.data h2 hn1 _ _ h'' with h3 | h3
      · exact Bool.false_ne_true (hB ▸ h3)
      · exact Bool.false_ne_true (hE ▸ h3)

/-- The treasury-balance shortfall error never matches the permanent-error
patterns, whatever decimal amounts are interpolated: it is retried. -/
theorem isPermanentError_insufficientTreasury (hv nd : String)
    (h1 : ∀ c ∈ hv.data, isAmountChar c = true) (hv1 : hv.data ≠ [])
    (h2 : ∀ c ∈ nd.data, isAmountChar c = true) (hn1 : nd.data ≠ []) :
    isPermanentError (insufficientTreasuryMsg hv nd) = false := by
  have k1 := containsSub_treasuryMsg_false "insufficient funds".data
    (by decide) (by decide) (by decide) (by decide) (by decide) hv nd h1 hv1 h2 hn1
  have k2 := containsSub_treasuryMsg_false "execution reverted".data
    (by decide) (by decide) (by decide) (by decide) (by decide) hv nd h1 hv1 h2 hn1
  have k3 := containsSub_treasuryMsg_false "cannot estimate gas".data
    (by decide) (by decide) (by decide) (by decide) (by decide) hv nd h1 hv1 h2 hn1
  have k4 := containsSub_treasuryMsg_false "invalid address".data
    (by decide) (by decide) (by decide) (by decide) (by decide) hv nd h1 hv1 h2 hn1
  simp only [isPermanentError, includesStr, k1, k2, k3, k4, Bool.or_self, Bool.or_false]

theorem handleTxError_inv (cb : Option TxCallback) (env : IterEnv)
    (entry : RelayerEntry) (txData : TxData) (rest : List TxData)
    (retryCount cf : Nat) (errMsg : String) (priorEvents : List TxPayload)
    (didSubmit : Bool) (stats : RelayerStats)
    (h : stats.totalTxSent = stats.totalTxSuccess + stats.totalTxFailed) :
    (handleTxError cb env entry txData rest retryCount cf errMsg priorEvents didSubmit
        stats).entry.stats.totalTxSent =
      (handleTxError cb env entry txData rest retryCount cf errMsg priorEvents didSubmit
          stats).entry.stats.totalTxSuccess +
        (handleTxError cb env entry txData rest retryCount cf errMsg priorEvents didSubmit
            stats).entry.stats.totalTxFailed := by
  obtain ⟨e1, e2, e3, _⟩ :=
    handleTxError_counters cb env entry txData rest retryCount cf errMsg priorEvents
      didSubmit stats
  omega

/-- C9: `totalTxSent = totalTxSuccess + totalTxFailed` holds for freshly
initialized stats and is preserved by every iteration of the drain loop,
hence holds at every quiescent point after each terminal event. -/
theorem stats_invariant_sent_eq_success_add_failed :
    (∀ i a nonce, (mkRelayerEntry i a nonce).stats.totalTxSent =
      (mkRelayerEntry i a nonce).stats.totalTxSuccess +
        (mkRelayerEntry i a nonce).stats.totalTxFailed) ∧
    (∀ (cb : Option TxCallback) (env : IterEnv) (entry : RelayerEntry) (cf : Nat),
      entry.stats.totalTxSent = entry.stats.totalTxSuccess + entry.stats.totalTxFailed →
      (processIteration cb env entry cf).entry.stats.totalTxSent =
        (processIteration cb env entry cf).entry.stats.totalTxSuccess +
          (processIteration cb env entry cf).entry.stats.totalTxFailed) := by
  constructor
  · intro i a nonce; rfl
  · intro cb env entry cf h
    obtain ⟨n1, h1⟩ := refreshedStats_eq env entry.stats
    obtain ⟨n2, c2, h2⟩ := cooldownStep_eq env { entry.stats with currentNonce := n1 } cf
    cases hq : entry.queue with
    | nil =>
      simp only [processIteration, h1, h2, hq]
      simpa using h
    | cons txData rest =>
      simp only [processIteration, h1, h2, hq]
      repeat' split
      all_goals
        first
          | (exact handleTxError_inv _ _ _ _ _ _ _ _ _ _ _ (by simp; omega))
          | (simp; omega)

/-! ## Concrete fixtures used by counterexamples and witnesses -/

/-- Zeroed stats for a pool-index-0 relayer at address `0xr1`, nonce 7. -/
def cexStats : RelayerStats :=
  { index := 0, address := "0xr1", active := true, currentNonce := 7
    totalTxSent := 0, totalTxSuccess := 0, totalTxFailed := 0
    lastError := none, lastErrorTimestamp := none
    lastSuccessTimestamp := none, lastSuccessHash := none
    tokensTransferred := 0, queueLength := 1 }

/-- A fresh 50-token request for player wallet `0xplayer`. -/
def cexTx : TxData :=
  { walletAddress := "0xplayer", pointsToMint := 50, retryCount := none, timestamp := 0 }

/-- A relayer mid-drain holding exactly the request `cexTx`. -/
def cexEntry : RelayerEntry :=
  { address := "0xr1", stats := cexStats, queue := [cexTx], processing := true }

/-- A registered completion callback that returns normally. -/
def cexCb : TxCallback := fun _ => none

/-- A registered completion callback that always throws. -/
def cexCbThrows : TxCallback := fun _ => some "callback exploded"

/-- Iteration environment in which the treasury holds only 10 tokens, so the
50-token request fails the balance check of relayer.js line 594. -/
def cexEnvShortTreasury : IterEnv :=
  { pendingNonce := some 7, cooldownNonce := none
    treasuryBalance := .ok (10 * 10 ^ 18)
    treasuryBalanceFormatted := "10.0", amountFormatted := "50.0"
    feeData := .ok ⟨some 0, some 0⟩, gasPriority := .medium
    submitResult := .ok "0xhash", confirmResult := .ok ⟨"0xhash", some 21000⟩
    errorNonce := none, now := 1000 }

/-- Iteration environment in which every ledger call succeeds and the
transfer confirms. -/
def cexEnvOk : IterEnv :=
  { pendingNonce := some 7, cooldownNonce := none
    treasuryBalance := .ok (1000 * 10 ^ 18)
    treasuryBalanceFormatted := "1000.0", amountFormatted := "50.0"
    feeData := .ok ⟨some 0, some 0⟩, gasPriority := .medium
    submitResult := .ok "0xhash", confirmResult := .ok ⟨"0xhash", some 21000⟩
    errorNonce := none, now := 1000 }

/-- Iteration environment in which the transfer submits but the
confirmation wait times out. -/
def cexEnvTimeout : IterEnv :=
  { pendingNonce := some 7, cooldownNonce := none
    treasuryBalance := .ok (1000 * 10 ^ 18)
    treasuryBalanceFormatted := "1000.0", amountFormatted := "50.0"
    feeData := .ok ⟨some 0, some 0⟩, gasPriority := .medium
    submitResult := .ok "0xhash", confirmResult := .error confirmationTimeoutMsg
    errorNonce := none, now := 1000 }

/-- The claim C3 probe: a request with a strictly negative amount. -/
def cexNegTx : TxData :=
  { walletAddress := "0xplayer", pointsToMint := -5, retryCount := none, timestamp := 0 }

/-- An initialized one-relayer pool with an empty queue. -/
def cexSys : RelayerSystem :=
  { isInitialized := true, entries := [mkRelayerEntry 0 "0xr1" 7] }

/-- Filler request used to give fixture queues a length. -/
def dummyTx : TxData :=
  { walletAddress := "0xw", pointsToMint := 1, retryCount := none, timestamp := 0 }

/-- The spec scenario pool: three active relayers with queue lengths 2, 0
and 1. -/
def scenSys : RelayerSystem :=
  { isInitialized := true
    entries :=
      [ { mkRelayerEntry 0 "0xa" 0 with queue := [dummyTx, dummyTx] }
      , mkRelayerEntry 1 "0xb" 0
      , { mkRelayerEntry 2 "0xc" 0 with queue := [dummyTx] } ] }

/-! ## C1: classification of the insufficient-treasury failure -/

/-- C1 counterexample: with the treasury 40 tokens short of a 50-token
request and a callback registered, one drain iteration fires no completion
callback, keeps the request at the head of the queue with `retryCount`
bumped from 0 to 1, and schedules a 2000 ms retry backoff: the
insufficient-balance condition is retried as transient, not reported as a
terminal permanent failure. -/
theorem insufficientTreasury_retried_cex :
    (processIteration (some cexCb) cexEnvShortTreasury cexEntry 0).events = [] ∧
    (processIteration (some cexCb) cexEnvShortTreasury cexEntry 0).entry.queue =
      [{ cexTx with retryCount := some 1 }] ∧
    (processIteration (some cexCb) cexEnvShortTreasury cexEntry 0).backoffMs = 2000 ∧
    isPermanentError (insufficientTreasuryMsg "10.0" "50.0") = false := by
  decide

/-- C1 (amended): a submission attempt that fails the treasury-balance
check is classified transient, not permanent: no completion callback
fires, the request stays at the head of its queue with `retryCount`
incremented by 1, the capped exponential backoff is applied, no submission
is attempted, and the per-attempt failure counters are updated. -/
theorem insufficientTreasury_transient (cb : Option TxCallback) (env : IterEnv)
    (entry : RelayerEntry) (cf : Nat) (txData : TxData) (rest : List TxData) (bal : Nat)
    (hq : entry.queue = txData :: rest)
    (hr : txData.retryCount.getD 0 < maxRetries)
    (hbal : env.treasuryBalance = .ok bal)
    (hlt : (bal : Int) < txData.pointsToMint * 10 ^ 18)
    (hhv : ∀ c ∈ env.treasuryBalanceFormatted.data, isAmountChar c = true)
    (hhv1 : env.treasuryBalanceFormatted.data ≠ [])
    (hnd : ∀ c ∈ env.amountFormatted.data, isAmountChar c = true)
    (hnd1 : env.amountFormatted.data ≠ []) :
    (processIteration cb env entry cf).events = [] ∧
    (processIteration cb env entry cf).entry.queue =
      { txData with retryCount := some (txData.retryCount.getD 0 + 1) } :: rest ∧
    (processIteration cb env entry cf).backoffMs =
      min (2000 * 2 ^ txData.retryCount.getD 0) 30000 ∧
    (processIteration cb env entry cf).submitted = false ∧
    (processIteration cb env entry cf).aborted = false ∧
    (processIteration cb env entry cf).entry.stats.totalTxSent =
      entry.stats.totalTxSent + 1 ∧
    (processIteration cb env entry cf).entry.stats.totalTxFailed =
      entry.stats.totalTxFailed + 1 ∧
    (processIteration cb env entry cf).entry.stats.totalTxSuccess =
      entry.stats.totalTxSuccess := by
  obtain ⟨n1, h1⟩ := refreshedStats_eq env entry.stats
  obtain ⟨n2, c2, h2⟩ := cooldownStep_eq env { entry.stats with currentNonce := n1 } cf
  have hperm := isPermanentError_insufficientTreasury env.treasuryBalanceFormatted
    env.amountFormatted hhv hhv1 hnd hnd1
  have hnr : ¬ (maxRetries ≤ txData.retryCount.getD 0) := by omega
  simp only [processIteration, h1, h2, hq, hbal, if_neg hnr, if_pos hlt]
  rw [handleTxError_transient cb env entry txData rest (txData.retryCount.getD 0) c2 _ [] false
    _ hperm]
  refine ⟨rfl, rfl, rfl, rfl, rfl, ?_, ?_, ?_⟩ <;>
    (split <;> cases env.errorNonce <;> simp)

/-- C1 witness: the amended behaviour at the concrete short-treasury
fixture. -/
theorem insufficientTreasury_transient_witness :
    (processIteration (some cexCb) cexEnvShortTreasury cexEntry 0).events = [] ∧
    (processIteration (some cexCb) cexEnvShortTreasury cexEntry 0).entry.queue =
      [{ cexTx with retryCount := some (cexTx.retryCount.getD 0 + 1) }] ∧
    (processIteration (some cexCb) cexEnvShortTreasury cexEntry 0).backoffMs =
      min (2000 * 2 ^ cexTx.retryCount.getD 0) 30000 ∧
    (processIteration (some cexCb) cexEnvShortTreasury cexEntry 0).submitted = false ∧
    (processIteration (some cexCb) cexEnvShortTreasury cexEntry 0).aborted = false ∧
    (processIteration (some cexCb) cexEnvShortTreasury cexEntry 0).entry.stats.totalTxSent =
      cexEntry.stats.totalTxSent + 1 ∧
    (processIteration (some cexCb) cexEnvShortTreasury cexEntry 0).entry.stats.totalTxFailed =
      cexEntry.stats.totalTxFailed + 1 ∧
    (processIteration (some cexCb) cexEnvShortTreasury cexEntry 0).entry.stats.totalTxSuccess =
      cexEntry.stats.totalTxSuccess :=
  insufficientTreasury_transient (some cexCb) cexEnvShortTreasury cexEntry 0 cexTx []
    (10 * 10 ^ 18) rfl (by decide) rfl (by decide) (by decide) (by decide) (by decide)
    (by decide)

/-! ## C8: confirmation timeout handling -/

/-- C8: when the confirmation wait rejects with the fixed-timeout error
(the 60000 ms race of relayer.js lines 637-640), the failure is classified
transient: the request's `retryCount` is incremented by exactly 1, the
request remains at the head of its queue, and the processor backs off for
`min(2000 * 2 ^ retryCount, 30000)` ms (exponential backoff capped at 30 s),
where `retryCount` is the request's pre-failure value. -/
theorem confirmationTimeout_transient (cb : Option TxCallback) (env : IterEnv)
    (entry : RelayerEntry) (cf : Nat) (txData : TxData) (rest : List TxData)
    (bal : Nat) (fd : FeeData) (txHash : String)
    (hq : entry.queue = txData :: rest)
    (hr : txData.retryCount.getD 0 < maxRetries)
    (hbal : env.treasuryBalance = .ok bal)
    (hge : ¬ ((bal : Int) < txData.pointsToMint * 10 ^ 18))
    (hfd : env.feeData = .ok fd)
    (hsub : env.submitResult = .ok txHash)
    (hcf : env.confirmResult = .error confirmationTimeoutMsg) :
    confirmationTimeoutMs = 60000 ∧
    isPermanentError confirmationTimeoutMsg = false ∧
    (processIteration cb env entry cf).events = [] ∧
    (processIteration cb env entry cf).entry.queue =
      { txData with retryCount := some (txData.retryCount.getD 0 + 1) } :: rest ∧
    (processIteration cb env entry cf).backoffMs =
      min (2000 * 2 ^ txData.retryCount.getD 0) 30000 ∧
    (processIteration cb env entry cf).backoffMs ≤ 30000 ∧
    (processIteration cb env entry cf).aborted = false ∧
    (processIteration cb env entry cf).entry.stats.totalTxSent =
      entry.stats.totalTxSent + 1 ∧
    (processIteration cb env entry cf).entry.stats.totalTxFailed =
      entry.stats.totalTxFailed + 1 ∧
    (processIteration cb env entry cf).entry.stats.totalTxSuccess =
      entry.stats.totalTxSuccess := by
  obtain ⟨n1, h1⟩ := refreshedStats_eq env entry.stats
  obtain ⟨n2, c2, h2⟩ := cooldownStep_eq env { entry.stats with currentNonce := n1 } cf
  have hperm : isPermanentError confirmationTimeoutMsg = false := by decide
  have hnr : ¬ (maxRetries ≤ txData.retryCount.getD 0) := by omega
  refine ⟨rfl, hperm, ?_⟩
  simp only [processIteration, h1, h2, hq, hbal, hfd, hsub, hcf, if_neg hnr, if_neg hge]
  rw [handleTxError_transient cb env entry txData rest (txData.retryCount.getD 0) c2 _ [] true
    _ hperm]
  refine ⟨rfl, rfl, rfl, by simp, rfl, ?_, ?_, ?_⟩ <;>
    (split <;> cases env.errorNonce <;> simp)

/-- C8 witness: the transient timeout handling at the concrete fixture. -/
theorem confirmationTimeout_transient_witness :
    confirmationTimeoutMs = 60000 ∧
    isPermanentError confirmationTimeoutMsg = false ∧
    (processIteration (some cexCb) cexEnvTimeout cexEntry 0).events = [] ∧
    (processIteration (some cexCb) cexEnvTimeout cexEntry 0).entry.queue =
      [{ cexTx with retryCount := some (cexTx.retryCount.getD 0 + 1) }] ∧
    (processIteration (some cexCb) cexEnvTimeout cexEntry 0).backoffMs =
      min (2000 * 2 ^ cexTx.retryCount.getD 0) 30000 ∧
    (processIteration (some cexCb) cexEnvTimeout cexEntry 0).backoffMs ≤ 30000 ∧
    (processIteration (some cexCb) cexEnvTimeout cexEntry 0).aborted = false ∧
    (processIteration (some cexCb) cexEnvTimeout cexEntry 0).entry.stats.totalTxSent =
      cexEntry.stats.totalTxSent + 1 ∧
    (processIteration (some cexCb) cexEnvTimeout cexEntry 0).entry.stats.totalTxFailed =
      cexEntry.stats.totalTxFailed + 1 ∧
    (processIteration (some cexCb) cexEnvTimeout cexEntry 0).entry.stats.totalTxSuccess =
      cexEntry.stats.totalTxSuccess :=
  confirmationTimeout_transient (some cexCb) cexEnvTimeout cexEntry 0 cexTx []
    (1000 * 10 ^ 18) ⟨some 0, some 0⟩ "0xhash" rfl (by decide) rfl (by decide) rfl rfl rfl

/-! ## C2: the completion callback raising an exception -/

/-- C2 counterexample: when the registered callback throws on a confirmed
success, the request is NOT removed from the queue and the stats ARE
affected by the callback's exception: the failure counters are updated on
top of the success counters (`totalTxSent` is counted twice) and the
request is scheduled for a retry. -/
theorem callback_raise_cex :
    (processIteration (some cexCbThrows) cexEnvOk cexEntry 0).entry.queue =
      [{ cexTx with retryCount := some 1 }] ∧
    (processIteration (some cexCbThrows) cexEnvOk cexEntry 0).entry.stats.totalTxSent = 2 ∧
    (processIteration (some cexCbThrows) cexEnvOk cexEntry 0).entry.stats.totalTxSuccess = 1 ∧
    (processIteration (some cexCbThrows) cexEnvOk cexEntry 0).entry.stats.totalTxFailed = 1 ∧
    (processIteration (some cexCbThrows) cexEnvOk cexEntry 0).events =
      [successPayload "0xr1" 0 cexTx ⟨"0xhash", some 21000⟩] ∧
    (processIteration (some cexCbThrows) cexEnvOk cexEntry 0).backoffMs = 2000 := by
  decide

/-- C2 (amended): the callback is invoked exactly once within a
confirmed-success iteration, but if it raises, the exception is caught by
the per-attempt error handler rather than being treated as a non-fatal
no-op: the drain loop does continue (`aborted = false`), yet the request is
NOT removed (it stays at the head with `retryCount` incremented and is
retried with backoff) and the stats ARE affected (failure counters are
recorded on top of the already-applied success counters). -/
theorem callback_exception_caught (f : TxCallback) (env : IterEnv)
    (entry : RelayerEntry) (cf : Nat) (txData : TxData) (rest : List TxData)
    (bal : Nat) (fd : FeeData) (txHash : String) (receipt : Receipt) (m : String)
    (hq : entry.queue = txData :: rest)
    (hr : txData.retryCount.getD 0 < maxRetries)
    (hbal : env.treasuryBalance = .ok bal)
    (hge : ¬ ((bal : Int) < txData.pointsToMint * 10 ^ 18))
    (hfd : env.feeData = .ok fd)
    (hsub : env.submitResult = .ok txHash)
    (hcf : env.confirmResult = .ok receipt)
    (hf : f (successPayload entry.address entry.stats.index txData receipt) = some m)
    (hperm : isPermanentError m = false) :
    (processIteration (some f) env entry cf).events =
      [successPayload entry.address entry.stats.index txData receipt] ∧
    (processIteration (some f) env entry cf).entry.queue =
      { txData with retryCount := some (txData.retryCount.getD 0 + 1) } :: rest ∧
    (processIteration (some f) env entry cf).aborted = false ∧
    (processIteration (some f) env entry cf).backoffMs =
      min (2000 * 2 ^ txData.retryCount.getD 0) 30000 ∧
    (processIteration (some f) env entry cf).entry.stats.totalTxSent =
      entry.stats.totalTxSent + 2 ∧
    (processIteration (some f) env entry cf).entry.stats.totalTxSuccess =
      entry.stats.totalTxSuccess + 1 ∧
    (processIteration (some f) env entry cf).entry.stats.totalTxFailed =
      entry.stats.totalTxFailed + 1 := by
  obtain ⟨n1, h1⟩ := refreshedStats_eq env entry.stats
  obtain ⟨n2, c2, h2⟩ := cooldownStep_eq env { entry.stats with currentNonce := n1 } cf
  have hnr : ¬ (maxRetries ≤ txData.retryCount.getD 0) := by omega
  simp only [processIteration, h1, h2, hq, hbal, hfd, hsub, hcf, if_neg hnr, if_neg hge]
  simp only [hf]
  rw [handleTxError_transient (some f) env entry txData rest (txData.retryCount.getD 0) c2 m
    [successPayload entry.address entry.stats.index txData receipt] true _ hperm]
  refine ⟨rfl, rfl, rfl, rfl, ?_, ?_, ?_⟩ <;>
    (split <;> cases env.errorNonce <;> simp)

/-- C2 witness: the amended behaviour at the concrete throwing-callback
fixture. -/
theorem callback_exception_caught_witness :
    (processIteration (some cexCbThrows) cexEnvOk cexEntry 0).events =
      [successPayload cexEntry.address cexEntry.stats.index cexTx ⟨"0xhash", some 21000⟩] ∧
    (processIteration (some cexCbThrows) cexEnvOk cexEntry 0).entry.queue =
      [{ cexTx with retryCount := some (cexTx.retryCount.getD 0 + 1) }] ∧
    (processIteration (some cexCbThrows) cexEnvOk cexEntry 0).aborted = false ∧
    (processIteration (some cexCbThrows) cexEnvOk cexEntry 0).backoffMs =
      min (2000 * 2 ^ cexTx.retryCount.getD 0) 30000 ∧
    (processIteration (some cexCbThrows) cexEnvOk cexEntry 0).entry.stats.totalTxSent =
      cexEntry.stats.totalTxSent + 2 ∧
    (processIteration (some cexCbThrows) cexEnvOk cexEntry 0).entry.stats.totalTxSuccess =
      cexEntry.stats.totalTxSuccess + 1 ∧
    (processIteration (some cexCbThrows) cexEnvOk cexEntry 0).entry.stats.totalTxFailed =
      cexEntry.stats.totalTxFailed + 1 :=
  callback_exception_caught cexCbThrows cexEnvOk cexEntry 0 cexTx [] (1000 * 10 ^ 18)
    ⟨some 0, some 0⟩ "0xhash" ⟨"0xhash", some 21000⟩ "callback exploded"
    rfl (by decide) rfl (by decide) rfl rfl rfl rfl (by decide)

/-! ## Selection and enqueue validation (C3, C5) -/

/-- The strict-improvement scan keeps the accumulator unless a strictly
shorter queue appears; its result is the first entry of the scanned list
achieving the minimum, whenever that minimum beats the accumulator. -/
theorem selectLoop_split (rs : List RelayerEntry) :
    ∀ acc : RelayerEntry,
      (selectLoop acc acc.queue.length rs = acc ∧
        ∀ e ∈ rs, acc.queue.length ≤ e.queue.length) ∨
      (∃ a1 r a2, rs = a1 ++ r :: a2 ∧ selectLoop acc acc.queue.length rs = r ∧
        r.queue.length < acc.queue.length ∧
        (∀ e ∈ rs, r.queue.length ≤ e.queue.length) ∧
        (∀ e ∈ a1, r.queue.length < e.queue.length)) := by
  induction rs with
  | nil =>
    intro acc
    left
    exact ⟨rfl, by simp⟩
  | cons x rs ih =>
    intro acc
    by_cases hx : x.queue.length < acc.queue.length
    · rcases ih x with ⟨heq, hmin⟩ | ⟨a1, r, a2, hsplit, heq, hlt, hmin, hfirst⟩
      · right
        refine ⟨[], x, rs, by simp, ?_, hx, ?_, by simp⟩
        · simp [selectLoop, hx, heq]
        · intro e he
          rcases List.mem_cons.mp he with rfl | he
          · exact le_refl _
          · exact hmin e he
      · right
        refine ⟨x :: a1, r, a2, by simp [hsplit], ?_, lt_trans hlt hx, ?_, ?_⟩
        · simp [selectLoop, hx, heq]
        · intro e he
          rcases List.mem_cons.mp he with rfl | he
          · exact le_of_lt hlt
          · exact hmin e he
        · intro e he
          rcases List.mem_cons.mp he with rfl | he
          · exact hlt
          · exact hfirst e he
    · push_neg at hx
      rcases ih acc with ⟨heq, hmin⟩ | ⟨a1, r, a2, hsplit, heq, hlt, hmin, hfirst⟩
      · left
        refine ⟨?_, ?_⟩
        · simp [selectLoop, not_lt.mpr hx, heq]
        · intro e he
          rcases List.mem_cons.mp he with rfl | he
          · exact hx
          · exact hmin e he
      · right
        refine ⟨x :: a1, r, a2, by simp [hsplit], ?_, hlt, ?_, ?_⟩
        · simp [selectLoop, not_lt.mpr hx, heq]
        · intro e he
          rcases List.mem_cons.mp he with rfl | he
          · exact le_trans (le_of_lt hlt) hx
          · exact hmin e he
        · intro e he
          rcases List.mem_cons.mp he with rfl | he
          · exact lt_of_lt_of_le hlt hx
          · exact hfirst e he

/-- A decomposition of a filtered list lifts to a decomposition of the
original list, with the left part filtering to the left part. -/
theorem filter_split {α : Type} (p : α → Bool) :
    ∀ (l a1 : List α) (r : α) (a2 : List α), l.filter p = a1 ++ r :: a2 →
      ∃ l1 l2, l = l1 ++ r :: l2 ∧ l1.filter p = a1 := by
  intro l
  induction l with
  | nil =>
    intro a1 r a2 h
    simp only [List.filter_nil] at h
    exact absurd h (by simp)
  | cons x l ih =>
    intro a1 r a2 h
    by_cases hp : p x
    · rw [List.filter_cons_of_pos hp] at h
      cases a1 with
      | nil =>
        simp only [List.nil_append, List.cons.injEq] at h
        obtain ⟨rfl, _⟩ := h
        exact ⟨[], l, rfl, rfl⟩
      | cons b a1 =>
        simp only [List.cons_append, List.cons.injEq] at h
        obtain ⟨rfl, hrest⟩ := h
        obtain ⟨l1, l2, rfl, hfl⟩ := ih a1 r a2 hrest
        exact ⟨x :: l1, l2, rfl, by rw [List.filter_cons_of_pos hp, hfl]⟩
    · rw [List.filter_cons_of_neg hp] at h
      obtain ⟨l1, l2, rfl, hfl⟩ := ih a1 r a2 h
      exact ⟨x :: l1, l2, rfl, by rw [List.filter_cons_of_neg hp, hfl]⟩

/-- `selectRelayer` returns `null` exactly when no relayer is active. -/
theorem selectRelayer_none_iff (sys : RelayerSystem) :
    selectRelayer sys = none ↔ ∀ e ∈ sys.entries, e.stats.active = false := by
  unfold selectRelayer
  by_cases he : sys.entries.isEmpty
  · rw [if_pos he]
    rw [List.isEmpty_iff] at he
    simp [he]
  · rw [if_neg he]
    cases hf : sys.entries.filter (fun e => e.stats.active) with
    | nil =>
      simp only [hf]
      constructor
      · intro _ e hme
        simpa using List.filter_eq_nil_iff.mp hf e hme
      · intro _
        trivial
    | cons b bs =>
      simp only [hf]
      have hb : b ∈ sys.entries.filter (fun e => e.stats.active) := by
        rw [hf]
        exact List.mem_cons_self b bs
      rw [List.mem_filter] at hb
      constructor
      · intro h
        exact absurd h (by simp)
      · intro hall
        exact absurd (hall b hb.1) (by simp [hb.2])

/-- Characterization of a successful selection: the chosen relayer is
active, sits in the pool, has a queue no longer than any active relayer's,
and every active relayer earlier in pool order has a strictly longer
queue. -/
theorem selectRelayer_some_spec (sys : RelayerSystem) (r : RelayerEntry)
    (h : selectRelayer sys = some r) :
    ∃ l1 l2, sys.entries = l1 ++ r :: l2 ∧ r.stats.active = true ∧
      (∀ e ∈ sys.entries, e.stats.active = true → r.queue.length ≤ e.queue.length) ∧
      (∀ e ∈ l1, e.stats.active = true → r.queue.length < e.queue.length) := by
  unfold selectRelayer at h
  by_cases he : sys.entries.isEmpty
  · rw [if_pos he] at h
    exact absurd h (by simp)
  · rw [if_neg he] at h
    cases hf : sys.entries.filter (fun e => e.stats.active) with
    | nil =>
      simp only [hf] at h
      exact absurd h (by simp)
    | cons best restA =>
      simp only [hf, Option.some.injEq] at h
      have key : ∃ a1 a2, best :: restA = a1 ++ r :: a2 ∧
          (∀ e ∈ best :: restA, r.queue.length ≤ e.queue.length) ∧
          (∀ e ∈ a1, r.queue.length < e.queue.length) := by
        rcases selectLoop_split (best :: restA) best with
          ⟨heq, hmin⟩ | ⟨a1, rr, a2, hsplit, heq, _, hmin, hfirst⟩
        · rw [heq] at h
          subst h
          exact ⟨[], restA, rfl, hmin, by simp⟩
        · rw [heq] at h
          subst h
          exact ⟨a1, a2, hsplit, hmin, hfirst⟩
      obtain ⟨a1, a2, hsplit, hmin, hfirst⟩ := key
      have hract : r ∈ sys.entries.filter (fun e => e.stats.active) := by
        rw [hf, hsplit]
        exact List.mem_append.mpr (Or.inr (List.mem_cons_self r a2))
      rw [List.mem_filter] at hract
      obtain ⟨l1, l2, hentries, hl1f⟩ := filter_split (fun e => e.stats.active)
        sys.entries a1 r a2 (by rw [hf, hsplit])
      refine ⟨l1, l2, hentries, by simpa using hract.2, ?_, ?_⟩
      · intro e hme hact
        have hmemf : e ∈ sys.entries.filter (fun e => e.stats.active) :=
          List.mem_filter.mpr ⟨hme, by simp [hact]⟩
        rw [hf] at hmemf
        exact hmin e hmemf
      · intro e hme hact
        have hmemf : e ∈ l1.filter (fun e => e.stats.active) :=
          List.mem_filter.mpr ⟨hme, by simp [hact]⟩
        rw [hl1f] at hmemf
        exact hfirst e hmemf

/-- Full case analysis of `queueTransaction`: failure paths return `false`
and leave the state untouched; the success path appends to the selected
relayer's queue. -/
theorem queueTransaction_spec (sys : RelayerSystem) (now : Nat) (txData : TxData) :
    ((sys.isInitialized = false ∨ txData.walletAddress = "" ∨ txData.pointsToMint = 0) →
      queueTransaction sys now txData = (false, sys)) ∧
    (selectRelayer sys = none → queueTransaction sys now txData = (false, sys)) ∧
    (∀ r, selectRelayer sys = some r →
      sys.isInitialized = true → txData.walletAddress ≠ "" → txData.pointsToMint ≠ 0 →
      queueTransaction sys now txData =
        (true, { sys with
          entries := appendToQueue sys.entries r.address { txData with timestamp := now } })) := by
  refine ⟨?_, ?_, ?_⟩
  · intro h
    rcases h with h | h | h <;> simp [queueTransaction, h]
  · intro h
    by_cases h1 : sys.isInitialized
    · by_cases h2 : txData.walletAddress = "" ∨ txData.pointsToMint = 0
      · rcases h2 with h2 | h2 <;> simp [queueTransaction, h2]
      · push_neg at h2
        simp [queueTransaction, h1, h2.1, h2.2, h]
    · simp [queueTransaction, h1]
  · intro r hs h1 h2 h3
    simp [queueTransaction, h1, h2, h3, hs]

/-- C3 counterexample: an initialized pool with one active relayer accepts
a request with a strictly negative amount (`pointsToMint = -5` is truthy in
JS), appending it to a queue and returning success, where the claim
demands failure with no state change. -/
theorem negative_amount_admitted_cex :
    cexNegTx.pointsToMint < 0 ∧
    (queueTransaction cexSys 99 cexNegTx).1 = true ∧
    (queueTransaction cexSys 99 cexNegTx).2.entries ≠ cexSys.entries := by
  decide

/-- C3 (amended): `queueTransaction` fails and leaves the state unchanged
when the subsystem is uninitialized, the recipient is empty, or the amount
is zero (JS falsiness); it additionally fails, state unchanged, when no
relayer is active; in every other case — including strictly negative
amounts, which the truthiness check admits — it returns success. -/
theorem queueTransaction_validation (sys : RelayerSystem) (now : Nat) (txData : TxData) :
    ((sys.isInitialized = false ∨ txData.walletAddress = "" ∨ txData.pointsToMint = 0 ∨
        (∀ e ∈ sys.entries, e.stats.active = false)) →
      queueTransaction sys now txData = (false, sys)) ∧
    ((queueTransaction sys now txData).1 = true ↔
      sys.isInitialized = true ∧ txData.walletAddress ≠ "" ∧ txData.pointsToMint ≠ 0 ∧
        ¬ (∀ e ∈ sys.entries, e.stats.active = false)) := by
  obtain ⟨hfail, hnone, hsucc⟩ := queueTransaction_spec sys now txData
  constructor
  · intro h
    rcases h with h | h | h | h
    · exact hfail (Or.inl h)
    · exact hfail (Or.inr (Or.inl h))
    · exact hfail (Or.inr (Or.inr h))
    · exact hnone ((selectRelayer_none_iff sys).mpr h)
  · constructor
    · intro h
      by_cases h1 : sys.isInitialized
      · by_cases h2 : txData.walletAddress = ""
        · rw [hfail (Or.inr (Or.inl h2))] at h; exact absurd h (by simp)
        · by_cases h3 : txData.pointsToMint = 0
          · rw [hfail (Or.inr (Or.inr h3))] at h; exact absurd h (by simp)
          · by_cases h4 : ∀ e ∈ sys.entries, e.stats.active = false
            · rw [hnone ((selectRelayer_none_iff sys).mpr h4)] at h
              exact absurd h (by simp)
            · exact ⟨h1, h2, h3, h4⟩
      · rw [hfail (Or.inl (by simpa using h1))] at h; exact absurd h (by simp)
    · rintro ⟨h1, h2, h3, h4⟩
      cases hs : selectRelayer sys with
      | none => exact absurd ((selectRelayer_none_iff sys).mp hs) h4
      | some r => rw [hsucc r hs h1 h2 h3]

/-- C3 witness: the validation characterization at the concrete fixture —
an uninitialized call fails with no state change, and the concrete
successful call satisfies the success characterization. -/
theorem queueTransaction_validation_witness :
    queueTransaction emptySystem 99 cexNegTx = (false, emptySystem) ∧
    ((queueTransaction cexSys 99 cexNegTx).1 = true ↔
      cexSys.isInitialized = true ∧ cexNegTx.walletAddress ≠ "" ∧
        cexNegTx.pointsToMint ≠ 0 ∧
        ¬ (∀ e ∈ cexSys.entries, e.stats.active = false)) :=
  ⟨(queueTransaction_validation emptySystem 99 cexNegTx).1 (Or.inl rfl),
   (queueTransaction_validation cexSys 99 cexNegTx).2⟩

/-- C5: every successful enqueue appends the request to the queue of an
active relayer whose queue is no longer than any active relayer's, with
every active relayer earlier in pool order strictly longer (ties go to the
lowest pool position); inactive relayers are never selected, and the call
fails when no relayer is active. -/
theorem enqueue_shortest_queue (sys : RelayerSystem) (now : Nat) (txData : TxData) :
    ((queueTransaction sys now txData).1 = true →
      ∃ r l1 l2, selectRelayer sys = some r ∧
        sys.entries = l1 ++ r :: l2 ∧
        r.stats.active = true ∧
        (∀ e ∈ sys.entries, e.stats.active = true → r.queue.length ≤ e.queue.length) ∧
        (∀ e ∈ l1, e.stats.active = true → r.queue.length < e.queue.length) ∧
        (queueTransaction sys now txData).2.entries =
          appendToQueue sys.entries r.address { txData with timestamp := now }) ∧
    ((∀ e ∈ sys.entries, e.stats.active = false) →
      (queueTransaction sys now txData).1 = false) := by
  obtain ⟨hfail, hnone, hsucc⟩ := queueTransaction_spec sys now txData
  constructor
  · intro h
    by_cases h1 : sys.isInitialized
    · by_cases h2 : txData.walletAddress = ""
      · rw [hfail (Or.inr (Or.inl h2))] at h; exact absurd h (by simp)
      · by_cases h3 : txData.pointsToMint = 0
        · rw [hfail (Or.inr (Or.inr h3))] at h; exact absurd h (by simp)
        · cases hs : selectRelayer sys with
          | none => rw [hnone hs] at h; exact absurd h (by simp)
          | some r =>
            obtain ⟨l1, l2, hentries, hact, hmin, hfirst⟩ :=
              selectRelayer_some_spec sys r hs
            refine ⟨r, l1, l2, rfl, hentries, hact, hmin, hfirst, ?_⟩
            rw [hsucc r hs h1 h2 h3]
    · rw [hfail (Or.inl (by simpa using h1))] at h; exact absurd h (by simp)
  · intro h
    rw [hnone ((selectRelayer_none_iff sys).mpr h)]

/-- C5 witness: the spec scenario — three active relayers with queue
lengths 2, 0 and 1; the enqueue succeeds and the selection facts hold. -/
theorem enqueue_shortest_queue_witness :
    ∃ r l1 l2, selectRelayer scenSys = some r ∧
      scenSys.entries = l1 ++ r :: l2 ∧
      r.stats.active = true ∧
      (∀ e ∈ scenSys.entries, e.stats.active = true → r.queue.length ≤ e.queue.length) ∧
      (∀ e ∈ l1, e.stats.active = true → r.queue.length < e.queue.length) ∧
      (queueTransaction scenSys 7 cexTx).2.entries =
        appendToQueue scenSys.entries r.address { cexTx with timestamp := 7 } :=
  (enqueue_shortest_queue scenSys 7 cexTx).1 (by decide)

/-! ## C4: initialization with zero derivable relayer identities -/

/-- Environment with owner, treasury and token configured, the multi-wallet
system enabled, but no relayer keys at all. -/
def cexInitConfig : InitConfig :=
  { ownerPrivateKey := some "ownerKey", privateKey := none
    treasuryPrivateKey := some "treasuryKey", tokenAddress := some "0xtoken"
    enableRelayerSystem := true, maxRelayers := 3
    relayerEnvKeys := fun _ => none }

/-- Ledger in which every key derives and every address has nonce 5; the
JSON fallback file does not exist. -/
def cexInitLedger : InitLedger :=
  { addrOf := fun k => some ("0x" ++ k), transactionCount := fun _ => 5
    jsonWallets := none }

/-- C4 counterexample: with zero relayer credentials configured (so zero
relayer identities derivable) the treasury-variant `initialize` does not
fail: it substitutes the owner wallet as the sole relayer and reports
success. -/
theorem owner_substituted_cex :
    (∀ i, cexInitConfig.relayerEnvKeys i = none) ∧
    initializeRelayersFromEnv cexInitConfig cexInitLedger = [] ∧
    (initializeSystem cexInitConfig cexInitLedger).1 = true ∧
    (initializeSystem cexInitConfig cexInitLedger).2.entries =
      [mkRelayerEntry 0 "0xownerKey" 5] := by
  refine ⟨fun i => rfl, ?_, ?_, ?_⟩ <;> decide

/-- C4 (amended): in the treasury variant, when the relayer system is
enabled, zero relayer identities can be derived from the environment and
the JSON fallback file is absent, `initialize` substitutes the owner
wallet as the sole (non-empty) relayer pool and returns success; it
returns failure when the treasury credential is missing (and likewise for
a missing owner credential or token address). -/
theorem initializeSystem_owner_fallback (cfg : InitConfig) (ledger : InitLedger)
    (ownerKey ownerAddress treasuryKey treasuryAddress tok : String)
    (hok : cfg.ownerPrivateKey = some ownerKey)
    (hoa : ledger.addrOf ownerKey = some ownerAddress)
    (htk : cfg.treasuryPrivateKey = some treasuryKey)
    (hta : ledger.addrOf treasuryKey = some treasuryAddress)
    (htok : cfg.tokenAddress = some tok)
    (hen : cfg.enableRelayerSystem = true)
    (hzero : initializeRelayersFromEnv cfg ledger = [])
    (hjson : ledger.jsonWallets = none) :
    initializeSystem cfg ledger =
      (true, { isInitialized := true
               entries := setupOwnerAsRelayer ownerAddress
                 (ledger.transactionCount ownerAddress) }) ∧
    setupOwnerAsRelayer ownerAddress (ledger.transactionCount ownerAddress) ≠ [] ∧
    initializeSystem { cfg with treasuryPrivateKey := none } ledger =
      (false, emptySystem) := by
  refine ⟨?_, by simp [setupOwnerAsRelayer], ?_⟩
  · simp [initializeSystem, hok, hoa, htk, hta, htok, hen, hzero, hjson]
  · simp [initializeSystem, hok, hoa]

/-- C4 witness: the fallback at the concrete zero-relayer configuration. -/
theorem initializeSystem_owner_fallback_witness :
    initializeSystem cexInitConfig cexInitLedger =
      (true, { isInitialized := true
               entries := setupOwnerAsRelayer "0xownerKey"
                 (cexInitLedger.transactionCount "0xownerKey") }) ∧
    setupOwnerAsRelayer "0xownerKey" (cexInitLedger.transactionCount "0xownerKey") ≠ [] ∧
    initializeSystem { cexInitConfig with treasuryPrivateKey := none } cexInitLedger =
      (false, emptySystem) :=
  initializeSystem_owner_fallback cexInitConfig cexInitLedger
    "ownerKey" "0xownerKey" "treasuryKey" "0xtreasuryKey" "0xtoken"
    rfl rfl rfl rfl rfl rfl (by decide) rfl

/-! ## Witnesses for the retry-budget and invariant theorems -/

/-- A request that has exhausted its retry budget. -/
def cexTxExhausted : TxData :=
  { walletAddress := "0xplayer", pointsToMint := 50, retryCount := some 5, timestamp := 0 }

/-- A relayer whose head request has exhausted its retry budget. -/
def cexEntryExhausted : RelayerEntry :=
  { address := "0xr1", stats := cexStats, queue := [cexTxExhausted], processing := true }

/-- C6 witness: the terminal max-retries handling at the concrete
exhausted-request fixture. -/
theorem maxRetries_terminal_witness :
    (processIteration (some cexCb) cexEnvOk cexEntryExhausted 0).entry.queue = [] ∧
    (processIteration (some cexCb) cexEnvOk cexEntryExhausted 0).events =
      [maxRetriesPayload cexEntryExhausted.address cexEntryExhausted.stats.index
        cexTxExhausted] ∧
    (maxRetriesPayload cexEntryExhausted.address cexEntryExhausted.stats.index
      cexTxExhausted).success = false ∧
    (maxRetriesPayload cexEntryExhausted.address cexEntryExhausted.stats.index
      cexTxExhausted).error = some maxRetriesMsg ∧
    (processIteration (some cexCb) cexEnvOk cexEntryExhausted 0).entry.stats.queueLength =
      List.length ([] : List TxData) ∧
    (processIteration (some cexCb) cexEnvOk cexEntryExhausted 0).submitted = false ∧
    (processIteration (some cexCb) cexEnvOk cexEntryExhausted 0).aborted = false :=
  maxRetries_terminal cexCb cexEnvOk cexEntryExhausted 0 cexTxExhausted []
    rfl (by decide) (by decide)

/-- C10 witness: the stats-frame property at the same fixture. -/
theorem maxRetries_removal_frame_witness :
    (processIteration (some cexCb) cexEnvOk cexEntryExhausted 0).entry.stats.totalTxSent =
      cexEntryExhausted.stats.totalTxSent ∧
    (processIteration (some cexCb) cexEnvOk cexEntryExhausted 0).entry.stats.totalTxSuccess =
      cexEntryExhausted.stats.totalTxSuccess ∧
    (processIteration (some cexCb) cexEnvOk cexEntryExhausted 0).entry.stats.totalTxFailed =
      cexEntryExhausted.stats.totalTxFailed ∧
    (processIteration (some cexCb) cexEnvOk cexEntryExhausted 0).entry.stats.tokensTransferred =
      cexEntryExhausted.stats.tokensTransferred :=
  maxRetries_removal_frame (some cexCb) cexEnvOk cexEntryExhausted 0 cexTxExhausted []
    rfl (by decide)

/-- C9 witness: the invariant holds for fresh stats and is preserved by a
concrete successful iteration. -/
theorem stats_invariant_witness :
    (mkRelayerEntry 0 "0xr1" 7).stats.totalTxSent =
      (mkRelayerEntry 0 "0xr1" 7).stats.totalTxSuccess +
        (mkRelayerEntry 0 "0xr1" 7).stats.totalTxFailed ∧
    (processIteration (some cexCb) cexEnvOk cexEntry 0).entry.stats.totalTxSent =
      (processIteration (some cexCb) cexEnvOk cexEntry 0).entry.stats.totalTxSuccess +
        (processIteration (some cexCb) cexEnvOk cexEntry 0).entry.stats.totalTxFailed :=
  ⟨stats_invariant_sent_eq_success_add_failed.1 0 "0xr1" 7,
   stats_invariant_sent_eq_success_add_failed.2 (some cexCb) cexEnvOk cexEntry 0 (by decide)⟩

end NadRacer
